import Mathlib

set_option maxRecDepth 40000

/-!
Verification of the core logic of the `tap-aptify` MSSQL extraction connector
(`tap_aptify/client.py`): the detailed SQL-type-to-JSON-schema mapper
(`aptifyConnector.hd_to_jsonschema_type`), the record post-processor
(`aptifyStream.post_process`), the batch JSON encoder
(`CustomJSONEncoder.default`), and the incremental query builder
(`aptifyStream.get_records`).

Python values, records, and schema dictionaries are shallowly embedded as
inductive types; Python `float` values are modelled as the exact rational
value of the correctly rounded IEEE-754 binary64 number (round to nearest,
ties to even, unbounded exponent — this coincides with binary64 on every
value appearing here, all of which lie well inside the normal range).
Fallible Python code (raised exceptions) is modelled with `Except`.
Rational values are built with `mkRat` and integer arithmetic throughout so
that every definition evaluates by kernel reduction.
-/

/-! ## Powers of two and ten over ℚ, with integer exponents -/

/-- `2 ^ k` over `ℚ` for an integer exponent `k`. -/
def qpow2 (k : ℤ) : ℚ :=
  if 0 ≤ k then ((2 ^ k.toNat : ℤ) : ℚ) else mkRat 1 (2 ^ (-k).toNat)

/-- `q * 2 ^ k` over `ℚ` for an integer exponent `k`. -/
def qscale2 (q : ℚ) (k : ℤ) : ℚ :=
  if 0 ≤ k then mkRat (q.num * 2 ^ k.toNat) q.den else mkRat q.num (q.den * 2 ^ (-k).toNat)

/-- `q * 10 ^ k` over `ℚ` for an integer exponent `k`. -/
def qscale10 (q : ℚ) (k : ℤ) : ℚ :=
  if 0 ≤ k then mkRat (q.num * 10 ^ k.toNat) q.den else mkRat q.num (q.den * 10 ^ (-k).toNat)

/-- Fuel-driven base-2 logarithm on `ℕ` (`natLog2F f n = ⌊log₂ n⌋` whenever
`f` is at least `n` and `n ≥ 1`). Structural recursion on the fuel keeps it
kernel-reducible. -/
def natLog2F : ℕ → ℕ → ℕ
  | 0, _ => 0
  | f + 1, n => if 2 ≤ n then natLog2F f (n / 2) + 1 else 0

/-- Base-2 logarithm, rounded down, of a natural number. -/
def natLog2 (n : ℕ) : ℕ := natLog2F n n

/-- Floor of the base-2 logarithm of a positive rational: the unique `e` with
`2 ^ e ≤ q < 2 ^ (e + 1)` (junk value on non-positive input). -/
def qfloorLog2 (q : ℚ) : ℤ :=
  let t : ℤ := (natLog2 q.num.natAbs : ℤ) - (natLog2 q.den : ℤ)
  if qpow2 t ≤ q then (if qpow2 (t + 1) ≤ q then t + 1 else t) else t - 1

/-- Floor of a rational, computed by floor-division of the numerator by the
denominator. -/
def qfloor (q : ℚ) : ℤ := Int.fdiv q.num q.den

/-- Round a rational to the nearest integer, ties to even. -/
def roundHalfEven (x : ℚ) : ℤ :=
  let f : ℤ := qfloor x
  let rnum : ℤ := x.num - f * x.den
  if 2 * rnum < (x.den : ℤ) then f
  else if (x.den : ℤ) < 2 * rnum then f + 1
  else if f % 2 = 0 then f else f + 1

/-- Round a positive rational to 53 significant binary digits
(round to nearest, ties to even). -/
def pyFloatPos (q : ℚ) : ℚ :=
  let e : ℤ := qfloorLog2 q - 52
  let m : ℤ := roundHalfEven (qscale2 q (-e))
  qscale2 ((m : ℤ) : ℚ) e

/-- The exact value of the Python `float` (IEEE-754 binary64, round to
nearest, ties to even) nearest to the rational `q`.  The exponent is not
clamped, so this coincides with binary64 only away from the subnormal and
overflow ranges — which covers every value this development evaluates it on. -/
def pyFloat (q : ℚ) : ℚ :=
  if 0 < q then pyFloatPos q
  else if q < 0 then -(pyFloatPos (-q))
  else 0

/-! ## Parsing the decimal literals handed to Python `float()` -/

/-- Decimal-digit test for a character. -/
def isDigitB (c : Char) : Bool := decide ('0' ≤ c) && decide (c ≤ '9')

/-- Value of a digit string read in base 10 (junk on non-digit characters). -/
def digitsToNat (cs : List Char) : ℕ :=
  cs.foldl (fun a c => a * 10 + (c.toNat - '0'.toNat)) 0

/-- Parse a non-empty all-digit character list to a natural number. -/
def parseDigits (cs : List Char) : Option ℕ :=
  if cs ≠ [] && cs.all isDigitB then some (digitsToNat cs) else none

/-- Parse the unsigned mantissa of a Python float literal:
`digits`, `digits.digits`, `digits.` or `.digits`. -/
def parseUnsignedMant (cs : List Char) : Option ℚ :=
  let ip := cs.takeWhile isDigitB
  let rest := cs.dropWhile isDigitB
  match rest with
  | [] => if ip ≠ [] then some (((digitsToNat ip : ℤ) : ℚ)) else none
  | '.' :: fp =>
    if fp.all isDigitB && (ip ≠ [] || fp ≠ []) then
      some (mkRat (digitsToNat (ip ++ fp) : ℤ) (10 ^ fp.length))
    else none
  | _ => none

/-- Parse an optionally signed mantissa. -/
def parseMant (cs : List Char) : Option ℚ :=
  match cs with
  | [] => none
  | c :: rest =>
    if c = '-' then (parseUnsignedMant rest).map (fun q => -q)
    else if c = '+' then parseUnsignedMant rest
    else parseUnsignedMant cs

/-- Parse the (optionally signed) exponent digits following `e`/`E`. -/
def parseExp (cs : List Char) : Option ℤ :=
  match cs with
  | [] => none
  | c :: rest =>
    if c = '-' then (parseDigits rest).map (fun n => -(n : ℤ))
    else if c = '+' then (parseDigits rest).map (fun n => (n : ℤ))
    else (parseDigits cs).map (fun n => (n : ℤ))

/-- Character test: not an exponent marker. -/
def notExpMarker (c : Char) : Bool := !(c = 'e' || c = 'E')

/-- Exact rational value of a decimal/scientific literal accepted by Python
`float()` (`none` where `float()` raises `ValueError`; whitespace,
underscores and the `inf`/`nan` spellings never arise here and are not
modelled). -/
def parseVal (cs : List Char) : Option ℚ :=
  let mant := cs.takeWhile notExpMarker
  let rest := cs.dropWhile notExpMarker
  match rest with
  | [] => parseMant mant
  | _ :: es =>
    match parseMant mant, parseExp es with
    | some m, some e => some (qscale10 m e)
    | _, _ => none

/-- The value of Python `float(s)`: exact parse followed by correct rounding
to binary64. -/
def pyFloatOfChars (cs : List Char) : Option ℚ :=
  (parseVal cs).map pyFloat

/-- CPython `str()` of a finite positive float uses scientific (`e+`)
notation exactly when the value is at least `1e16`; this predicate models
the `"e+" in str(float(...))` test of `client.py` line 239 on the positive
finite values it is applied to. -/
def strHasEPlus (q : ℚ) : Bool := decide ((10 ^ 16 : ℕ) * q.den ≤ q.num.natAbs)

example : parseVal ("999.99".data) = some (mkRat 99999 100) := by decide
example : parseVal ("".data) = none := by decide
example : parseVal ("-999.99".data) = some (-(mkRat 99999 100)) := by decide
example : parseVal ("9.99e+5".data) = some (((999000 : ℤ) : ℚ)) := by decide
example : pyFloat (mkRat 1 2) = mkRat 1 2 := by decide
example : pyFloat (mkRat 99999 100) = mkRat 4398002530638889 4398046511104 := by decide
example : strHasEPlus (pyFloat (mkRat (10 ^ 16 - 1) 10)) = false := by decide

/-! ## Decimal rendering of natural numbers (for `f-strings` and `isoformat`) -/

/-- The character for a single decimal digit. -/
def digitChar (d : ℕ) : Char := Char.ofNat ('0'.toNat + d)

/-- Fuel-driven decimal rendering of a natural number. -/
def natToCharsAux : ℕ → ℕ → List Char
  | 0, _ => []
  | f + 1, n => if n < 10 then [digitChar n] else natToCharsAux f (n / 10) ++ [digitChar (n % 10)]

/-- Decimal rendering of a natural number, most significant digit first. -/
def natToChars (n : ℕ) : List Char := natToCharsAux (n + 1) n

/-- Zero-padded decimal rendering to a fixed width. -/
def padChars (w n : ℕ) : List Char :=
  List.replicate (w - (natToChars n).length) '0' ++ natToChars n

/-! ## Python date/time values and their `isoformat` renderings -/

/-- A Python `datetime.date`. -/
structure PyDate where
  year : ℕ
  month : ℕ
  day : ℕ
deriving DecidableEq

/-- A Python `datetime.time` (naive; a `tzinfo` never occurs in rows read
from MSSQL through this tap). -/
structure PyTime where
  hour : ℕ
  minute : ℕ
  second : ℕ
  microsecond : ℕ
deriving DecidableEq

/-- A Python `datetime.datetime` (naive). -/
structure PyDateTime where
  date : PyDate
  time : PyTime
deriving DecidableEq

/-- `datetime.date.isoformat()`: `YYYY-MM-DD`. -/
def PyDate.isoChars (d : PyDate) : List Char :=
  padChars 4 d.year ++ '-' :: padChars 2 d.month ++ '-' :: padChars 2 d.day

/-- `datetime.time.isoformat()` with the default `timespec`: `HH:MM:SS`,
extended with `.ffffff` exactly when the microsecond field is nonzero. -/
def PyTime.isoChars (t : PyTime) : List Char :=
  padChars 2 t.hour ++ ':' :: padChars 2 t.minute ++ ':' :: padChars 2 t.second ++
    (if t.microsecond = 0 then [] else '.' :: padChars 6 t.microsecond)

/-- `datetime.time.isoformat(timespec='seconds')`: always `HH:MM:SS`. -/
def PyTime.isoSecondsChars (t : PyTime) : List Char :=
  padChars 2 t.hour ++ ':' :: padChars 2 t.minute ++ ':' :: padChars 2 t.second

/-- `datetime.datetime.isoformat()` with the default `T` separator. -/
def PyDateTime.isoChars (dt : PyDateTime) : List Char :=
  dt.date.isoChars ++ 'T' :: dt.time.isoChars

/-- `pendulum.instance(dt).isoformat()` for a naive `dt`: pendulum attaches
UTC, so the rendering is the plain `isoformat` plus a `+00:00` offset. -/
def PyDateTime.pendulumIsoChars (dt : PyDateTime) : List Char :=
  dt.isoChars ++ "+00:00".data

/-! ## Python runtime values and errors -/

/-- The Python values that can appear in a row or a partition context:
`None`, booleans, ints, floats (`num`, as their exact rational value),
`decimal.Decimal` (exact value), strings, `bytes` (a list of byte values),
and the three `datetime` classes. -/
inductive PyValue where
  | none
  | bool (b : Bool)
  | int (n : ℤ)
  | num (q : ℚ)
  | decimal (q : ℚ)
  | str (s : String)
  | bytes (bs : List ℕ)
  | date (d : PyDate)
  | datetime (dt : PyDateTime)
  | time (t : PyTime)
deriving DecidableEq

/-- The Python exception kinds raised by the code under verification.
`valueError` carries enough of the message to separate the two raise sites
(the type-dispatch `ValueError` of `hd_to_jsonschema_type` and the
`float('')` conversion failure). -/
inductive PyError where
  | valueError (msg : String)
  | typeError
  | attributeError
  | notImplementedError (msg : String)
deriving DecidableEq

/-- Python truthiness for the values above (`if value:`). -/
def pyTruthy : PyValue → Bool
  | .none => false
  | .bool b => b
  | .int n => n ≠ 0
  | .num q => q ≠ 0
  | .decimal q => q ≠ 0
  | .str s => s ≠ ""
  | .bytes bs => !bs.isEmpty
  | .date _ => true
  | .datetime _ => true
  | .time _ => true

/-- `isinstance(v, datetime.date)`: true for `date` and for `datetime`
(`datetime.datetime` is a subclass of `datetime.date`), false for `time`. -/
def isDateInstance : PyValue → Bool
  | .date _ => true
  | .datetime _ => true
  | _ => false

/-- `value.isoformat()` for the values satisfying `isDateInstance`. -/
def dateInstanceIso : PyValue → String
  | .date d => String.mk d.isoChars
  | .datetime dt => String.mk dt.isoChars
  | _ => ""

/-! ## base64 -/

/-- The base64 alphabet. -/
def b64Alphabet : List Char :=
  "ABCDEFGHIJKLMNOPQRSTUVWXYZabcdefghijklmnopqrstuvwxyz0123456789+/".data

/-- Character for a 6-bit group. -/
def b64Char (n : ℕ) : Char := b64Alphabet.getD n 'A'

/-- Standard base64 of a byte list, processed three bytes at a time with
`=` padding. -/
def b64Chunks : List ℕ → List Char
  | [] => []
  | [a] => [b64Char (a / 4), b64Char (a % 4 * 16), '=', '=']
  | [a, b] => [b64Char (a / 4), b64Char (a % 4 * 16 + b / 16), b64Char (b % 16 * 4), '=']
  | a :: b :: c :: rest =>
    b64Char (a / 4) :: b64Char (a % 4 * 16 + b / 16) ::
      b64Char (b % 16 * 4 + c / 64) :: b64Char (c % 64) :: b64Chunks rest

/-- `base64.b64encode(bs).decode()`. -/
def b64encodeBytes (bs : List ℕ) : String := String.mk (b64Chunks bs)

/-- `base64.b64encode(value).decode()` on an arbitrary value: only byte
strings are accepted; every other type raises `TypeError` (in particular a
`str`, so re-encoding already-encoded text fails). -/
def b64encodeValue : PyValue → Except PyError PyValue
  | .bytes bs => .ok (.str (b64encodeBytes bs))
  | _ => .error .typeError

example : b64encodeBytes [1, 2, 3] = "AQID" := by decide
example : b64encodeBytes [77, 97] = "TWE=" := by decide
example : b64encodeBytes [77] = "TQ==" := by decide

/-! ## Portable JSON schema types and the column-type descriptor -/

/-- A JSON number as it appears in a schema dictionary: either a Python
`int` or a Python `float` (held as its exact rational value). -/
inductive JNum where
  | int (n : ℤ)
  | float (q : ℚ)
deriving DecidableEq

/-- The JSON schema dictionaries produced by `hd_to_jsonschema_type`: a
`type` list plus the optional refinement fields actually emitted by
`client.py`. -/
structure JsonSchema where
  type : List String := []
  maxLength : Option ℕ := Option.none
  format : Option String := Option.none
  contentEncoding : Option String := Option.none
  contentMediaType : Option String := Option.none
  minimum : Option JNum := Option.none
  maximum : Option JNum := Option.none
deriving DecidableEq

/-- The `from_type` argument of `hd_to_jsonschema_type`: a plain type-name
string (which has no `length`/`precision`/`scale` attributes, so `getattr`
raises on it), a SQLAlchemy `TypeEngine` descriptor exposing a name and the
optional attributes, or anything else (rejected by the `isinstance`
dispatch). -/
inductive TypeInput where
  | str (name : String)
  | engine (name : String) (length precision scale : Option ℕ)
  | invalid
deriving DecidableEq

/-- The result of the mapper: either a schema dictionary built by the
detailed branches, or delegation to the external toolkit's default mapper
(`SQLConnector.to_jsonschema_type`, line 280 of `client.py`). -/
inductive MapResult where
  | mapped (s : JsonSchema)
  | fallback (t : TypeInput)
deriving DecidableEq

instance {ε α : Type} [DecidableEq ε] [DecidableEq α] : DecidableEq (Except ε α) := fun x y =>
  match x, y with
  | .ok a, .ok b => if h : a = b then .isTrue (by rw [h]) else .isFalse (by simp [h])
  | .error a, .error b => if h : a = b then .isTrue (by rw [h]) else .isFalse (by simp [h])
  | .ok _, .error _ => .isFalse (by simp)
  | .error _, .ok _ => .isFalse (by simp)

/-- `sql_type_name` of the input (the `isinstance` dispatch at lines
127-138); anything that is neither a `str` nor a `TypeEngine` raises
`ValueError`. -/
def typeNameOf : TypeInput → Except PyError String
  | .str n => .ok n
  | .engine n _ _ _ => .ok n
  | .invalid => .error (.valueError "Expected str or a SQLAlchemy TypeEngine object or type.")

/-- `getattr(from_type, 'length')`: a plain string has no such attribute. -/
def getLength : TypeInput → Except PyError (Option ℕ)
  | .engine _ l _ _ => .ok l
  | _ => .error .attributeError

/-- `getattr(from_type, 'precision')`. -/
def getPrecision : TypeInput → Except PyError (Option ℕ)
  | .engine _ _ p _ => .ok p
  | _ => .error .attributeError

/-- `getattr(from_type, 'scale')`. -/
def getScale : TypeInput → Except PyError (Option ℕ)
  | .engine _ _ _ s => .ok s
  | _ => .error .attributeError

/-- The digit string `maximum_as_number` built by the loop at lines
226-229: for `i in range(precision)`, append `'.'` when `i` equals
`precision - scale` (Python subtraction, hence over ℤ), then append `'9'`. -/
def decimalMaxChars (p s : ℕ) : List Char :=
  (List.range p).foldl
    (fun acc (i : ℕ) =>
      (if (i : ℤ) = (p : ℤ) - (s : ℤ) then acc ++ ['.'] else acc) ++ ['9']) []

/-- The string `maximum_scientific_format` built at lines 232-236: `"9."`,
then `scale` nines, then `"e+{precision}"`. -/
def sciFormatChars (p s : ℕ) : List Char :=
  ((List.range s).foldl (fun acc _ => acc ++ ['9']) ['9', '.']) ++ 'e' :: '+' :: natToChars p

/-- The NUMERIC/DECIMAL branch for `scale > 0` (or a non-integer scale),
lines 223-250: build the maximal/minimal digit strings, convert with
`float()`, and fall back to the scientific-format strings when the decimal
rendering of the float would use `e+` notation. -/
def decimalBranch (p s : ℕ) : Except PyError MapResult :=
  let maxChars := decimalMaxChars p s
  let minChars := '-' :: maxChars
  let sciMaxChars := sciFormatChars p s
  let sciMinChars := '-' :: sciMaxChars
  match pyFloatOfChars maxChars with
  | Option.none => .error (.valueError "could not convert string to float")
  | Option.some maxV =>
    if strHasEPlus maxV = false then
      match pyFloatOfChars minChars with
      | Option.none => .error (.valueError "could not convert string to float")
      | Option.some minV =>
        .ok (.mapped { type := ["number"], minimum := some (.float minV),
                       maximum := some (.float maxV) })
    else
      match pyFloatOfChars sciMinChars, pyFloatOfChars sciMaxChars with
      | Option.some mn, Option.some mx =>
        .ok (.mapped { type := ["number"], minimum := some (.float mn),
                       maximum := some (.float mx) })
      | _, _ => .error (.valueError "could not convert string to float")

/-- The NUMERIC/DECIMAL branch, lines 214-250.  `scale == 0` produces
integer bounds `±(10^precision − 1)`; otherwise the decimal-bound algorithm
runs.  A missing (`None`) precision makes `range`/`pow` raise `TypeError`; a
missing scale with a positive precision makes `precision - scale` raise
`TypeError`, and with precision 0 the empty digit string makes `float('')`
raise `ValueError`. -/
def numericBranch (pOpt sOpt : Option ℕ) : Except PyError MapResult :=
  match sOpt with
  | Option.some 0 =>
    match pOpt with
    | Option.none => .error .typeError
    | Option.some p =>
      .ok (.mapped { type := ["integer"], minimum := some (.int (-(10 ^ p : ℤ) + 1)),
                     maximum := some (.int ((10 ^ p : ℤ) - 1)) })
  | Option.some (s + 1) =>
    match pOpt with
    | Option.none => .error .typeError
    | Option.some p => decimalBranch p (s + 1)
  | Option.none =>
    match pOpt with
    | Option.none => .error .typeError
    | Option.some 0 => .error (.valueError "could not convert string to float")
    | Option.some _ => .error .typeError

/-- `aptifyConnector.hd_to_jsonschema_type` (lines 108-280): the detailed
mapping from an MSSQL type descriptor to a JSON schema dictionary.
Unmatched names delegate to the external default mapper (`fallback`). -/
def hd_to_jsonschema_type (t : TypeInput) : Except PyError MapResult := do
  let n ← typeNameOf t
  if n = "CHAR" ∨ n = "NCHAR" ∨ n = "VARCHAR" ∨ n = "NVARCHAR" then
    let len ← getLength t
    match len with
    | Option.some l =>
      if l ≠ 0 then pure (.mapped { type := ["string"], maxLength := some l })
      else pure (.fallback t)
    | Option.none => pure (.fallback t)
  else if n = "TIME" then
    pure (.mapped { type := ["string"], format := some "time" })
  else if n = "UNIQUEIDENTIFIER" then
    pure (.mapped { type := ["string"], format := some "uuid" })
  else if n = "XML" then
    pure (.mapped { type := ["string"], contentMediaType := some "application/xml" })
  else if n = "BINARY" ∨ n = "IMAGE" ∨ n = "VARBINARY" then
    let len ← getLength t
    match len with
    | Option.some l =>
      if l ≠ 0 then
        pure (.mapped { type := ["string"], contentEncoding := some "base64",
                        maxLength := some l })
      else pure (.mapped { type := ["string"], contentEncoding := some "base64" })
    | Option.none => pure (.mapped { type := ["string"], contentEncoding := some "base64" })
  else if n = "BIT" then
    pure (.mapped { type := ["boolean"] })
  else if n = "TINYINT" then
    pure (.mapped { type := ["integer"], minimum := some (.int 0), maximum := some (.int 255) })
  else if n = "SMALLINT" then
    pure (.mapped { type := ["integer"], minimum := some (.int (-32768)),
                    maximum := some (.int 32767) })
  else if n = "INTEGER" then
    pure (.mapped { type := ["integer"], minimum := some (.int (-2147483648)),
                    maximum := some (.int 2147483647) })
  else if n = "BIGINT" then
    pure (.mapped { type := ["integer"], minimum := some (.int (-9223372036854775808)),
                    maximum := some (.int 9223372036854775807) })
  else if n = "NUMERIC" ∨ n = "DECIMAL" then
    let p ← getPrecision t
    let s ← getScale t
    numericBranch p s
  else if n = "SMALLMONEY" then
    pure (.mapped { type := ["number"], minimum := some (.float (pyFloat (mkRat (-2147483648) 10000))),
                    maximum := some (.float (pyFloat (mkRat 2147483647 10000))) })
  else if n = "MONEY" then
    pure (.mapped { type := ["number"],
                    minimum := some (.float (pyFloat (mkRat (-9223372036854775808) 10000))),
                    maximum := some (.float (pyFloat (mkRat 9223372036854775807 10000))) })
  else if n = "FLOAT" then
    pure (.mapped { type := ["number"], minimum := some (.float (pyFloat (((-179) * 10 ^ 306 : ℤ) : ℚ))),
                    maximum := some (.float (pyFloat ((179 * 10 ^ 306 : ℤ) : ℚ))) })
  else if n = "REAL" then
    pure (.mapped { type := ["number"], minimum := some (.float (pyFloat (((-34) * 10 ^ 37 : ℤ) : ℚ))),
                    maximum := some (.float (pyFloat ((34 * 10 ^ 37 : ℤ) : ℚ))) })
  else
    pure (.fallback t)

example : hd_to_jsonschema_type (.engine "NUMERIC" Option.none (some 5) (some 2)) =
    .ok (.mapped { type := ["number"],
                   minimum := some (.float (-(mkRat 4398002530638889 4398046511104))),
                   maximum := some (.float (mkRat 4398002530638889 4398046511104)) }) := by
  decide

example : hd_to_jsonschema_type (.engine "VARCHAR" (some 42) Option.none Option.none) =
    .ok (.mapped { type := ["string"], maxLength := some 42 }) := by decide

example : hd_to_jsonschema_type (.engine "NUMERIC" Option.none (some 0) (some 0)) =
    .ok (.mapped { type := ["integer"], minimum := some (.int 0),
                   maximum := some (.int 0) }) := by decide

example : hd_to_jsonschema_type (.engine "NUMERIC" Option.none (some 0) (some 3)) =
    .error (.valueError "could not convert string to float") := by decide

example : hd_to_jsonschema_type (.engine "NUMERIC" Option.none (some 5) (some 0)) =
    .ok (.mapped { type := ["integer"], minimum := some (.int (-99999)),
                   maximum := some (.int 99999) }) := by decide

/-- Modelled from the spec: the external SQL toolkit's generic/default
mapping (`SQLConnector.to_jsonschema_type`, a `singer_sdk` collaborator
whose source is not part of this repository).  The spec (§4.1 and the
CHAR/NCHAR/VARCHAR/NVARCHAR table row) records only that character types
with no declared length map to a plain `string` schema; all other names are
left as an unconstrained generic schema. -/
def sdkDefaultJsonschemaType (t : TypeInput) : JsonSchema :=
  match t with
  | .str n | .engine n _ _ _ =>
    if n = "CHAR" ∨ n = "NCHAR" ∨ n = "VARCHAR" ∨ n = "NVARCHAR" then { type := ["string"] }
    else {}
  | .invalid => {}

/-- Resolve a mapper result, sending delegated inputs through the external
default mapper. -/
def resolveMapResult : MapResult → JsonSchema
  | .mapped s => s
  | .fallback t => sdkDefaultJsonschemaType t

/-! ## The record post-processor (`aptifyStream.post_process`, lines 405-436) -/

/-- The body of the `for key, value in record.items()` loop for one field.
Non-null values first pass the `isinstance(value, datetime.date)` check
(which also matches `datetime.datetime`, a subclass, but not
`datetime.time`) and are replaced by `value.isoformat()`; then the column's
schema is consulted for `contentEncoding == 'base64'` — note that a non-null
value whose key has no schema entry makes `property_schema.get` raise
`AttributeError`, and that `b64encode` of a non-bytes value raises
`TypeError`. -/
def processField (props : List (String × JsonSchema)) (key : String) (value : PyValue) :
    Except PyError PyValue :=
  if value = PyValue.none then .ok value
  else
    let property_schema := props.lookup key
    let v1 := if isDateInstance value then PyValue.str (dateInstanceIso value) else value
    match property_schema with
    | Option.none => .error .attributeError
    | Option.some ps =>
      if ps.contentEncoding = some "base64" then b64encodeValue v1 else .ok v1

/-- `aptifyStream.post_process`: transform each field of the row in order,
propagating the first raised exception. -/
def post_process (props : List (String × JsonSchema)) :
    List (String × PyValue) → Except PyError (List (String × PyValue))
  | [] => .ok []
  | (k, v) :: rest => do
    let v1 ← processField props k v
    let rest1 ← post_process props rest
    .ok ((k, v1) :: rest1)

/-! ## The batch JSON encoder (`CustomJSONEncoder.default`, lines 340-357) -/

/-- `CustomJSONEncoder.default`: datetimes render through
`pendulum.instance(...).isoformat()`, dates through `isoformat()`, times
through `isoformat(timespec='seconds')`, `Decimal` through `float()`;
everything else falls to `json.JSONEncoder.default`, which raises
`TypeError`. -/
def CustomJSONEncoder_default (v : PyValue) : Except PyError PyValue :=
  match v with
  | .datetime dt => .ok (.str (String.mk dt.pendulumIsoChars))
  | .date d => .ok (.str (String.mk d.isoChars))
  | .time t => .ok (.str (String.mk t.isoSecondsChars))
  | .decimal q => .ok (.num (pyFloat q))
  | _ => .error .typeError

/-! ## The incremental query builder (`aptifyStream.get_records`, lines 438-493) -/

/-- The `python_type` of a SQLAlchemy column type, as compared against
`(datetime.datetime, datetime.date)` at lines 472-475. -/
inductive PyType where
  | int
  | float
  | str
  | bool
  | bytes
  | datetime
  | date
  | time
  | decimal
deriving DecidableEq

/-- A database row: an ordered mapping from column name to value. -/
abbrev Row := List (String × PyValue)

/-- The read query built by `get_records`: selected columns, optional
ascending ordering column, optional `column >= value` filter, optional row
limit. -/
structure QuerySpec where
  columns : List String
  orderBy : Option String := Option.none
  whereGe : Option (String × PyValue) := Option.none
  limit : Option ℕ := Option.none
deriving DecidableEq

/-- The per-stream state `get_records` reads: the stream name, the selected
column names (`get_selected_schema()["properties"].keys()`), the full
schema properties (`self.schema`, used by `post_process`), the configured
replication key and the `python_type` of its column, the values the two
framework bookmark accessors would return
(`get_starting_timestamp` / `get_starting_replication_key_value`), and
`ABORT_AT_RECORD_COUNT`. -/
structure StreamState where
  name : String
  selectedColumns : List String
  properties : List (String × JsonSchema)
  replicationKey : Option String
  replicationKeyPyType : PyType
  startingTimestamp : Option PyValue
  startingKeyValue : Option PyValue
  abortAtRecordCount : Option ℕ

/-- Truthiness of the `context` argument (`if context:`): a non-`None`,
non-empty dictionary. -/
def contextTruthy : Option (List (String × PyValue)) → Bool
  | Option.none => false
  | Option.some l => !l.isEmpty

/-- Truthiness of a resolved bookmark value (`if start_val:`). -/
def optValTruthy : Option PyValue → Bool
  | Option.none => false
  | Option.some v => pyTruthy v

/-- The starting value resolved at lines 472-478: date/datetime-typed
replication keys go through `get_starting_timestamp`, every other type
through `get_starting_replication_key_value`. -/
def resolvedStartVal (s : StreamState) : Option PyValue :=
  if s.replicationKeyPyType = PyType.datetime ∨ s.replicationKeyPyType = PyType.date then
    s.startingTimestamp
  else s.startingKeyValue

/-- Lines 457-484 of `get_records`: reject a truthy partition context with
`NotImplementedError`, then build the select over the selected columns,
order by the replication key when one is configured, filter
`key >= start_val` when the resolved starting value is truthy, and cap at
`ABORT_AT_RECORD_COUNT + 1` rows when an abort threshold is set. -/
def build_query (s : StreamState) (context : Option (List (String × PyValue))) :
    Except PyError QuerySpec :=
  if contextTruthy context then
    .error (.notImplementedError ("Stream " ++ s.name ++ " does not support partitioning."))
  else
    let q : QuerySpec := { columns := s.selectedColumns }
    let q :=
      match s.replicationKey with
      | Option.none => q
      | Option.some rk =>
        let q := { q with orderBy := some rk }
        let sv := resolvedStartVal s
        if optValTruthy sv then { q with whereGe := some (rk, sv.getD PyValue.none) } else q
    let q :=
      match s.abortAtRecordCount with
      | Option.none => q
      | Option.some n => { q with limit := some (n + 1) }
    .ok q

/-- SQL comparison on same-typed operands, used to model the
`replication_key_col >= start_val` filter and `ORDER BY` (total on the
model; mixed-type comparisons never occur in a well-typed column). -/
def pyLeB : PyValue → PyValue → Bool
  | .int a, .int b => a ≤ b
  | .num a, .num b => a ≤ b
  | .decimal a, .decimal b => a ≤ b
  | .str a, .str b => a ≤ b
  | .bool a, .bool b => !a || b
  | .bytes a, .bytes b => decide (a ≤ b)
  | .date a, .date b =>
    decide (a.year < b.year ∨ (a.year = b.year ∧ (a.month < b.month ∨
      (a.month = b.month ∧ a.day ≤ b.day))))
  | .time a, .time b =>
    decide ((a.hour, a.minute, a.second, a.microsecond) ≤ (b.hour, b.minute, b.second, b.microsecond))
  | .datetime a, .datetime b =>
    decide ((a.date.year, a.date.month, a.date.day, (a.time.hour, a.time.minute, a.time.second, a.time.microsecond)) ≤
      (b.date.year, b.date.month, b.date.day, (b.time.hour, b.time.minute, b.time.second, b.time.microsecond)))
  | _, _ => false

/-- Does a row pass the query's `>=` filter? -/
def rowQualifies (w : Option (String × PyValue)) (row : Row) : Bool :=
  match w with
  | Option.none => true
  | Option.some (c, v) =>
    match row.lookup c with
    | Option.some rv => pyLeB v rv
    | Option.none => false

/-- Row comparison by the `ORDER BY` column. -/
def rowKeyLe (col : String) (r1 r2 : Row) : Bool :=
  match r1.lookup col, r2.lookup col with
  | Option.some a, Option.some b => pyLeB a b
  | _, _ => true

/-- Insert into a sorted list (model of the SQL engine's stable sort). -/
def insertSorted (le : Row → Row → Bool) (r : Row) : List Row → List Row
  | [] => [r]
  | x :: xs => if le r x then r :: x :: xs else x :: insertSorted le r xs

/-- Insertion sort (model of `ORDER BY`). -/
def sortRows (le : Row → Row → Bool) : List Row → List Row
  | [] => []
  | x :: xs => insertSorted le x (sortRows le xs)

/-- Keep only the selected columns of a row (the `SELECT` column list). -/
def projectRow (cols : List String) (row : Row) : Row :=
  cols.filterMap (fun c => (row.lookup c).map (fun v => (c, v)))

/-- Execute a built query against a table: filter, order, limit, project.
This models the SQL engine's evaluation of the select constructed by
`get_records`; with no `ORDER BY` the storage order is returned. -/
def run_query (q : QuerySpec) (table : List Row) : List Row :=
  let rows := table.filter (rowQualifies q.whereGe)
  let rows :=
    match q.orderBy with
    | Option.none => rows
    | Option.some col => sortRows (rowKeyLe col) rows
  let rows :=
    match q.limit with
    | Option.none => rows
    | Option.some n => rows.take n
  rows.map (projectRow q.columns)

/-- Post-process every fetched row in order (lines 487-493; `post_process`
never returns Python `None` in this model, so the `continue` branch is
vacuous). -/
def postProcessRows (props : List (String × JsonSchema)) :
    List Row → Except PyError (List Row)
  | [] => .ok []
  | r :: rest => do
    let r1 ← post_process props r
    let rest1 ← postProcessRows props rest
    .ok (r1 :: rest1)

/-- `aptifyStream.get_records`: the full read — context check, query
construction, execution, per-row post-processing. -/
def get_records (s : StreamState) (context : Option (List (String × PyValue)))
    (table : List Row) : Except PyError (List Row) := do
  let q ← build_query s context
  postProcessRows s.properties (run_query q table)

/-! ## Helper lemmas about query execution -/

theorem length_insertSorted (le : Row → Row → Bool) (r : Row) (l : List Row) :
    (insertSorted le r l).length = l.length + 1 := by
  induction l with
  | nil => rfl
  | cons x xs ih =>
    unfold insertSorted
    by_cases h : le r x = true
    · simp [h]
    · simp [h, ih]

theorem length_sortRows (le : Row → Row → Bool) (l : List Row) :
    (sortRows le l).length = l.length := by
  induction l with
  | nil => rfl
  | cons x xs ih => simp [sortRows, length_insertSorted, ih]

theorem filter_rowQualifies_none (table : List Row) :
    table.filter (rowQualifies Option.none) = table := by
  induction table with
  | nil => rfl
  | cons x xs ih => simp [List.filter, rowQualifies, ih]

/-- Length of an executed query capped by a limit that the qualifying rows
exceed. -/
theorem run_query_length_of_limit (q : QuerySpec) (n : ℕ) (hlim : q.limit = some n)
    (table : List Row) (h : n ≤ (table.filter (rowQualifies q.whereGe)).length) :
    (run_query q table).length = n := by
  unfold run_query
  rw [hlim]
  cases horder : q.orderBy with
  | none => simp [List.length_take]; omega
  | some col => simp [List.length_take, length_sortRows]; omega

/-- Length of an executed query with no filter and no limit. -/
theorem run_query_length_full (q : QuerySpec) (hw : q.whereGe = Option.none)
    (hlim : q.limit = Option.none) (table : List Row) :
    (run_query q table).length = table.length := by
  unfold run_query
  rw [hlim, hw, filter_rowQualifies_none]
  cases horder : q.orderBy with
  | none => simp
  | some col => simp [length_sortRows]

/-! ## C4 — partitioned reads are unsupported -/

/-- C4: for every invocation of the stream's record read with a truthy
(non-empty) partition/context argument, `get_records` fails with the
`NotImplementedError` that models `UnsupportedPartitioning`, and yields no
records. -/
theorem C4_unsupported_partitioning (s : StreamState)
    (ctx : Option (List (String × PyValue))) (table : List Row)
    (h : contextTruthy ctx = true) :
    get_records s ctx table =
      .error (.notImplementedError
        ("Stream " ++ s.name ++ " does not support partitioning.")) := by
  simp [get_records, build_query, h, Bind.bind, Except.bind]

/-- C4 witness: a concrete stream read with a one-entry partition context
fails with the partitioning error. -/
theorem C4_unsupported_partitioning_witness :
    get_records
      { name := "Accounts", selectedColumns := [], properties := [],
        replicationKey := Option.none, replicationKeyPyType := PyType.int,
        startingTimestamp := Option.none, startingKeyValue := Option.none,
        abortAtRecordCount := Option.none }
      (some [("partition", PyValue.int 1)]) [] =
      .error (.notImplementedError "Stream Accounts does not support partitioning.") :=
  C4_unsupported_partitioning _ _ _ (by decide)

/-! ## C5 — abort threshold caps the read at N + 1 rows -/

/-- C5: with a configured abort threshold `n` (and a non-truthy context),
the built query carries `limit = n + 1`, and executing it against any table
with at least `n + 1` qualifying rows reads exactly `n + 1` rows. -/
theorem C5_abort_threshold (s : StreamState) (ctx : Option (List (String × PyValue)))
    (n : ℕ) (hctx : contextTruthy ctx = false) (habort : s.abortAtRecordCount = some n) :
    ∃ q, build_query s ctx = .ok q ∧ q.limit = some (n + 1) ∧
      ∀ table : List Row,
        n + 1 ≤ (table.filter (rowQualifies q.whereGe)).length →
        (run_query q table).length = n + 1 := by
  rcases hrk : s.replicationKey with _ | rk
  · refine ⟨{ columns := s.selectedColumns, limit := some (n + 1) }, ?_, rfl, ?_⟩
    · simp [build_query, hctx, hrk, habort]
    · intro table h
      exact run_query_length_of_limit _ _ rfl table h
  · by_cases htr : optValTruthy (resolvedStartVal s) = true
    · refine ⟨{ columns := s.selectedColumns, orderBy := some rk,
                whereGe := some (rk, (resolvedStartVal s).getD PyValue.none),
                limit := some (n + 1) }, ?_, rfl, ?_⟩
      · simp [build_query, hctx, hrk, habort, htr]
      · intro table h
        exact run_query_length_of_limit _ _ rfl table h
    · refine ⟨{ columns := s.selectedColumns, orderBy := some rk,
                limit := some (n + 1) }, ?_, rfl, ?_⟩
      · simp [build_query, hctx, hrk, habort, htr]
      · intro table h
        exact run_query_length_of_limit _ _ rfl table h

/-- C5 witness: threshold 1 against a three-row table reads exactly 2 rows. -/
theorem C5_abort_threshold_witness :
    ∃ q, build_query
        { name := "t", selectedColumns := ["id"], properties := [],
          replicationKey := Option.none, replicationKeyPyType := PyType.int,
          startingTimestamp := Option.none, startingKeyValue := Option.none,
          abortAtRecordCount := some 1 }
        Option.none = .ok q ∧ q.limit = some 2 ∧
      (run_query q [[("id", PyValue.int 1)], [("id", PyValue.int 2)],
        [("id", PyValue.int 3)]]).length = 2 := by
  obtain ⟨q, h1, h2, h3⟩ :=
    C5_abort_threshold
      { name := "t", selectedColumns := ["id"], properties := [],
        replicationKey := Option.none, replicationKeyPyType := PyType.int,
        startingTimestamp := Option.none, startingKeyValue := Option.none,
        abortAtRecordCount := some 1 }
      Option.none 1 (by decide) rfl
  refine ⟨q, h1, h2, h3 _ ?_⟩
  have hq : q = { columns := ["id"], limit := some 2 } := by
    have h := h1
    rw [show build_query
        { name := "t", selectedColumns := ["id"], properties := [],
          replicationKey := Option.none, replicationKeyPyType := PyType.int,
          startingTimestamp := Option.none, startingKeyValue := Option.none,
          abortAtRecordCount := some 1 } Option.none =
        Except.ok { columns := ["id"], limit := some 2 } from by decide] at h
    injection h with h
    exact h.symm
  rw [hq]
  decide

/-! ## C9 — null fields pass through post-processing unchanged -/

/-- C9: a null field is never transformed and never an error: processing a
`None` value succeeds and returns it unchanged, for any schema; and in a
full record pass, every field that was `None` going in is still `None`
coming out. -/
theorem C9_null_passthrough (props : List (String × JsonSchema)) (k : String)
    (row out : List (String × PyValue)) (hrun : post_process props row = .ok out)
    (hk : row.lookup k = some PyValue.none) :
    processField props k PyValue.none = .ok PyValue.none ∧
    out.lookup k = some PyValue.none := by
  refine ⟨rfl, ?_⟩
  induction row generalizing out with
  | nil => simp at hk
  | cons kv rest ih =>
    obtain ⟨k1, v1⟩ := kv
    simp only [post_process, Bind.bind, Except.bind] at hrun
    cases hf : processField props k1 v1 with
    | error e => rw [hf] at hrun; exact absurd hrun (by simp)
    | ok w =>
      rw [hf] at hrun
      cases hr : post_process props rest with
      | error e => rw [hr] at hrun; exact absurd hrun (by simp)
      | ok rest1 =>
        rw [hr] at hrun
        obtain rfl : (k1, w) :: rest1 = out := by
          simpa using hrun
        by_cases hkk : k == k1
        · simp only [List.lookup, hkk] at hk ⊢
          obtain rfl : v1 = PyValue.none := by simpa using hk
          obtain rfl : w = PyValue.none := by
            have : processField props k1 PyValue.none = .ok PyValue.none := rfl
            rw [this] at hf
            simpa using hf.symm
          rfl
        · simp only [List.lookup, hkk] at hk ⊢
          exact ih rest1 hr hk

/-- C9 witness: a two-field record with one null field keeps it null. -/
theorem C9_null_passthrough_witness :
    processField [("a", { type := ["integer"] }), ("b", { type := ["integer"] })] "a"
      PyValue.none = .ok PyValue.none ∧
    List.lookup "a" [("a", PyValue.none), ("b", PyValue.int 7)] = some PyValue.none :=
  C9_null_passthrough [("a", { type := ["integer"] }), ("b", { type := ["integer"] })] "a"
    [("a", PyValue.none), ("b", PyValue.int 7)]
    [("a", PyValue.none), ("b", PyValue.int 7)] (by decide) (by decide)

/-! ## C10 — a falsy bookmark is treated as no bookmark -/

/-- C10: when the resolved starting value is falsy (`None`, `0`, `''`, …),
the built query omits the `>=` filter but still orders by the replication
key; with no abort threshold the whole table is read. -/
theorem C10_falsy_bookmark (s : StreamState) (ctx : Option (List (String × PyValue)))
    (rk : String) (hctx : contextTruthy ctx = false) (hrk : s.replicationKey = some rk)
    (hfalsy : optValTruthy (resolvedStartVal s) = false) :
    ∃ q, build_query s ctx = .ok q ∧ q.whereGe = Option.none ∧ q.orderBy = some rk ∧
      (s.abortAtRecordCount = Option.none →
        ∀ table : List Row, (run_query q table).length = table.length) := by
  rcases habort : s.abortAtRecordCount with _ | n
  · refine ⟨{ columns := s.selectedColumns, orderBy := some rk }, ?_, rfl, rfl, ?_⟩
    · simp [build_query, hctx, hrk, hfalsy, habort]
    · intro _ table
      exact run_query_length_full _ rfl rfl table
  · refine ⟨{ columns := s.selectedColumns, orderBy := some rk,
              limit := some (n + 1) }, ?_, rfl, rfl, ?_⟩
    · simp [build_query, hctx, hrk, hfalsy, habort]
    · intro hnone
      exact absurd hnone (by simp)

/-- C10 witness: an integer replication key whose starting bookmark is `0`
produces an ordered, unfiltered query that reads a whole two-row table. -/
theorem C10_falsy_bookmark_witness :
    ∃ q, build_query
        { name := "t", selectedColumns := ["id"], properties := [],
          replicationKey := some "id", replicationKeyPyType := PyType.int,
          startingTimestamp := Option.none, startingKeyValue := some (PyValue.int 0),
          abortAtRecordCount := Option.none }
        Option.none = .ok q ∧ q.whereGe = Option.none ∧ q.orderBy = some "id" ∧
      (StreamState.abortAtRecordCount
        { name := "t", selectedColumns := ["id"], properties := [],
          replicationKey := some "id", replicationKeyPyType := PyType.int,
          startingTimestamp := Option.none, startingKeyValue := some (PyValue.int 0),
          abortAtRecordCount := Option.none } = Option.none →
        ∀ table : List Row, (run_query q table).length = table.length) :=
  C10_falsy_bookmark _ Option.none "id" (by decide) rfl (by decide)

/-! ## C6 — replication-key ordering and filtering -/

/-- C6 counterexample to the claim as stated: with an integer replication
key whose starting bookmark is known and equal to `0`, the generic accessor
resolves to `some 0` — a known bookmark — yet the built query omits the
filter clause. -/
theorem C6_counterexample :
    resolvedStartVal
      { name := "t", selectedColumns := ["id"], properties := [],
        replicationKey := some "id", replicationKeyPyType := PyType.int,
        startingTimestamp := Option.none, startingKeyValue := some (PyValue.int 0),
        abortAtRecordCount := Option.none } = some (PyValue.int 0) ∧
    build_query
      { name := "t", selectedColumns := ["id"], properties := [],
        replicationKey := some "id", replicationKeyPyType := PyType.int,
        startingTimestamp := Option.none, startingKeyValue := some (PyValue.int 0),
        abortAtRecordCount := Option.none }
      Option.none =
      .ok { columns := ["id"], orderBy := some "id", whereGe := Option.none,
            limit := Option.none } := by
  exact ⟨by decide, by decide⟩

/-- C6 (amended): with a replication key configured and a non-truthy
context, the built query always orders ascending by the key; the `>=`
filter clause is present exactly when the resolved starting value is known
and truthy, and carries that value; and the starting value resolves through
the timestamp accessor exactly for date/datetime-typed keys, through the
generic accessor otherwise. -/
theorem C6_replication_key_query (s : StreamState)
    (ctx : Option (List (String × PyValue))) (rk : String)
    (hctx : contextTruthy ctx = false) (hrk : s.replicationKey = some rk) :
    ∃ q, build_query s ctx = .ok q ∧ q.orderBy = some rk ∧
      ((∃ v, resolvedStartVal s = some v ∧ pyTruthy v = true ∧ q.whereGe = some (rk, v)) ∨
        (optValTruthy (resolvedStartVal s) = false ∧ q.whereGe = Option.none)) ∧
      resolvedStartVal s =
        (if s.replicationKeyPyType = PyType.datetime ∨ s.replicationKeyPyType = PyType.date
          then s.startingTimestamp else s.startingKeyValue) := by
  by_cases htr : optValTruthy (resolvedStartVal s) = true
  · obtain ⟨v, hv⟩ : ∃ v, resolvedStartVal s = some v := by
      cases hsv : resolvedStartVal s with
      | none => rw [hsv] at htr; exact absurd htr (by simp [optValTruthy])
      | some v => exact ⟨v, rfl⟩
    have htv : pyTruthy v = true := by
      rw [hv] at htr; simpa [optValTruthy] using htr
    rcases habort : s.abortAtRecordCount with _ | n
    · refine ⟨{ columns := s.selectedColumns, orderBy := some rk,
                whereGe := some (rk, v) }, ?_, rfl, Or.inl ⟨v, hv, htv, rfl⟩, rfl⟩
      simp [build_query, hctx, hrk, habort, hv, optValTruthy, htv]
    · refine ⟨{ columns := s.selectedColumns, orderBy := some rk,
                whereGe := some (rk, v), limit := some (n + 1) }, ?_, rfl,
          Or.inl ⟨v, hv, htv, rfl⟩, rfl⟩
      simp [build_query, hctx, hrk, habort, hv, optValTruthy, htv]
  · rw [Bool.not_eq_true] at htr
    rcases habort : s.abortAtRecordCount with _ | n
    · refine ⟨{ columns := s.selectedColumns, orderBy := some rk }, ?_, rfl,
        Or.inr ⟨htr, rfl⟩, rfl⟩
      simp [build_query, hctx, hrk, htr, habort]
    · refine ⟨{ columns := s.selectedColumns, orderBy := some rk,
                limit := some (n + 1) }, ?_, rfl, Or.inr ⟨htr, rfl⟩, rfl⟩
      simp [build_query, hctx, hrk, htr, habort]

/-- C6 witness: a datetime-typed key with a truthy starting timestamp
produces an ordered query filtered at that timestamp. -/
theorem C6_replication_key_query_witness :
    ∃ q, build_query
        { name := "t", selectedColumns := ["upd"], properties := [],
          replicationKey := some "upd", replicationKeyPyType := PyType.datetime,
          startingTimestamp := some (PyValue.datetime ⟨⟨2024, 1, 1⟩, ⟨0, 0, 0, 0⟩⟩),
          startingKeyValue := Option.none, abortAtRecordCount := Option.none }
        Option.none = .ok q ∧ q.orderBy = some "upd" ∧
      ((∃ v, resolvedStartVal
          { name := "t", selectedColumns := ["upd"], properties := [],
            replicationKey := some "upd", replicationKeyPyType := PyType.datetime,
            startingTimestamp := some (PyValue.datetime ⟨⟨2024, 1, 1⟩, ⟨0, 0, 0, 0⟩⟩),
            startingKeyValue := Option.none, abortAtRecordCount := Option.none } = some v ∧
          pyTruthy v = true ∧ q.whereGe = some ("upd", v)) ∨
        (optValTruthy (resolvedStartVal
          { name := "t", selectedColumns := ["upd"], properties := [],
            replicationKey := some "upd", replicationKeyPyType := PyType.datetime,
            startingTimestamp := some (PyValue.datetime ⟨⟨2024, 1, 1⟩, ⟨0, 0, 0, 0⟩⟩),
            startingKeyValue := Option.none, abortAtRecordCount := Option.none }) = false ∧
          q.whereGe = Option.none)) ∧
      resolvedStartVal
        { name := "t", selectedColumns := ["upd"], properties := [],
          replicationKey := some "upd", replicationKeyPyType := PyType.datetime,
          startingTimestamp := some (PyValue.datetime ⟨⟨2024, 1, 1⟩, ⟨0, 0, 0, 0⟩⟩),
          startingKeyValue := Option.none, abortAtRecordCount := Option.none } =
        (if StreamState.replicationKeyPyType
            { name := "t", selectedColumns := ["upd"], properties := [],
              replicationKey := some "upd", replicationKeyPyType := PyType.datetime,
              startingTimestamp := some (PyValue.datetime ⟨⟨2024, 1, 1⟩, ⟨0, 0, 0, 0⟩⟩),
              startingKeyValue := Option.none, abortAtRecordCount := Option.none } = PyType.datetime ∨
            StreamState.replicationKeyPyType
              { name := "t", selectedColumns := ["upd"], properties := [],
                replicationKey := some "upd", replicationKeyPyType := PyType.datetime,
                startingTimestamp := some (PyValue.datetime ⟨⟨2024, 1, 1⟩, ⟨0, 0, 0, 0⟩⟩),
                startingKeyValue := Option.none, abortAtRecordCount := Option.none } = PyType.date
          then StreamState.startingTimestamp
            { name := "t", selectedColumns := ["upd"], properties := [],
              replicationKey := some "upd", replicationKeyPyType := PyType.datetime,
              startingTimestamp := some (PyValue.datetime ⟨⟨2024, 1, 1⟩, ⟨0, 0, 0, 0⟩⟩),
              startingKeyValue := Option.none, abortAtRecordCount := Option.none }
          else StreamState.startingKeyValue
            { name := "t", selectedColumns := ["upd"], properties := [],
              replicationKey := some "upd", replicationKeyPyType := PyType.datetime,
              startingTimestamp := some (PyValue.datetime ⟨⟨2024, 1, 1⟩, ⟨0, 0, 0, 0⟩⟩),
              startingKeyValue := Option.none, abortAtRecordCount := Option.none }) :=
  C6_replication_key_query _ Option.none "upd" (by decide) rfl

/-! ## C2 — idempotence of post-processing -/

/-- C2 counterexample to the claim as stated: a record that is already
normalized — its single base64-declared column holds the text encoding
`"AQID"` of its bytes — does not come back unchanged from another
post-processing pass: `b64encode` requires a bytes object and raises
`TypeError` on the `str`. -/
theorem C2_counterexample :
    post_process [("payload", { type := ["string"], contentEncoding := some "base64" })]
      [("payload", PyValue.str "AQID")] = .error PyError.typeError := by decide

/-- C2 (amended): post-processing is the identity on any already-normalized
record none of whose non-null fields belongs to a base64-declared column:
every non-null value is no longer a native date/datetime (it already holds
ISO text) and its column's schema is present and not base64-encoded.  On
such records a second application returns the record unchanged. -/
theorem C2_idempotent_no_base64 (props : List (String × JsonSchema))
    (row : List (String × PyValue))
    (h : ∀ kv ∈ row, kv.2 ≠ PyValue.none →
      isDateInstance kv.2 = false ∧
      ∃ ps, props.lookup kv.1 = some ps ∧ ps.contentEncoding ≠ some "base64") :
    post_process props row = .ok row := by
  induction row with
  | nil => rfl
  | cons kv rest ih =>
    obtain ⟨k, v⟩ := kv
    have hrest := ih (fun kv hm hv => h kv (List.mem_cons_of_mem _ hm) hv)
    by_cases hv : v = PyValue.none
    · subst hv
      simp [post_process, processField, hrest, Bind.bind, Except.bind]
    · obtain ⟨hdate, ps, hlk, henc⟩ := h (k, v) (List.mem_cons_self _ _) hv
      simp [post_process, processField, hv, hdate, hlk, henc, hrest,
        Bind.bind, Except.bind]

/-- C2 witness: a normalized record (ISO date text, plain int) with no
base64 columns is returned unchanged. -/
theorem C2_idempotent_no_base64_witness :
    post_process
      [("d", { type := ["string"], format := some "date-time" }),
       ("n", { type := ["integer"] })]
      [("d", PyValue.str "2024-05-06"), ("n", PyValue.int 3)] =
      .ok [("d", PyValue.str "2024-05-06"), ("n", PyValue.int 3)] := by
  apply C2_idempotent_no_base64
  decide

/-! ## C3 — date/time conversion in post-processing -/

/-- C3 counterexample to the claim as stated: a time-of-day value is not
replaced by its ISO text by the record post-processor — it passes through
as a native `datetime.time` (only `datetime.date` instances are converted,
and `time` is not a `date` subclass). -/
theorem C3_counterexample :
    post_process [("t", { type := ["string"], format := some "time" })]
      [("t", PyValue.time ⟨12, 34, 56, 789⟩)] =
      .ok [("t", PyValue.time ⟨12, 34, 56, 789⟩)] ∧
    ∀ s : String, PyValue.time ⟨12, 34, 56, 789⟩ ≠ PyValue.str s := by
  exact ⟨by decide, fun s h => by cases h⟩

/-- C3 (amended): for non-null fields of a column that is present in the
schema and not base64-declared, the post-processor replaces `date` and
`datetime` values (datetime being a `date` subclass) by their ISO-8601
text, but leaves `time` values unchanged; second-precision truncation of
time values happens only in the batch JSON encoder
(`CustomJSONEncoder.default`, `isoformat(timespec='seconds')`). -/
theorem C3_date_conversion (props : List (String × JsonSchema)) (k : String)
    (ps : JsonSchema) (hlk : props.lookup k = some ps)
    (henc : ps.contentEncoding ≠ some "base64") :
    (∀ d : PyDate, processField props k (.date d) = .ok (.str (String.mk d.isoChars))) ∧
    (∀ dt : PyDateTime,
      processField props k (.datetime dt) = .ok (.str (String.mk dt.isoChars))) ∧
    (∀ t : PyTime, processField props k (.time t) = .ok (.time t)) ∧
    (∀ t : PyTime,
      CustomJSONEncoder_default (.time t) = .ok (.str (String.mk t.isoSecondsChars))) := by
  refine ⟨fun d => ?_, fun dt => ?_, fun t => ?_, fun t => rfl⟩ <;>
    simp [processField, isDateInstance, dateInstanceIso, hlk, henc]

/-- C3 witness: a concrete date becomes `"2024-05-06"`, a concrete datetime
becomes `"2024-05-06T07:08:09"`, a concrete time with microseconds stays
native in post-processing, and the batch encoder renders it truncated to
seconds as `"12:34:56"`. -/
theorem C3_date_conversion_witness :
    processField [("x", { type := ["string"] })] "x" (.date ⟨2024, 5, 6⟩) =
      .ok (.str "2024-05-06") ∧
    processField [("x", { type := ["string"] })] "x"
      (.datetime ⟨⟨2024, 5, 6⟩, ⟨7, 8, 9, 0⟩⟩) = .ok (.str "2024-05-06T07:08:09") ∧
    processField [("x", { type := ["string"] })] "x" (.time ⟨12, 34, 56, 789⟩) =
      .ok (.time ⟨12, 34, 56, 789⟩) ∧
    CustomJSONEncoder_default (.time ⟨12, 34, 56, 789⟩) = .ok (.str "12:34:56") := by
  obtain ⟨h1, h2, h3, h4⟩ :=
    C3_date_conversion [("x", { type := ["string"] })] "x" { type := ["string"] }
      (by decide) (by decide)
  refine ⟨?_, ?_, h3 _, ?_⟩
  · rw [h1 ⟨2024, 5, 6⟩]
    decide
  · rw [h2 ⟨⟨2024, 5, 6⟩, ⟨7, 8, 9, 0⟩⟩]
    decide
  · rw [h4 ⟨12, 34, 56, 789⟩]
    decide

/-! ## C7 — character types -/

/-- C7: for CHAR/NCHAR/VARCHAR/NVARCHAR descriptors, a present (nonzero)
declared length yields a `string` schema with `maxLength` equal to that
length; with no declared length the mapper delegates to the external
default mapper, which (modelled from the spec) yields a plain `string`
schema. -/
theorem C7_char_types (nm : String) (len p s : Option ℕ)
    (hnm : nm = "CHAR" ∨ nm = "NCHAR" ∨ nm = "VARCHAR" ∨ nm = "NVARCHAR") :
    (∀ l, len = some l → l ≠ 0 →
      hd_to_jsonschema_type (.engine nm len p s) =
        .ok (.mapped { type := ["string"], maxLength := some l })) ∧
    (len = Option.none →
      hd_to_jsonschema_type (.engine nm len p s) =
        .ok (.fallback (.engine nm len p s)) ∧
      resolveMapResult (.fallback (.engine nm len p s)) = { type := ["string"] }) := by
  constructor
  · intro l hlen hl0
    subst hlen
    rcases hnm with h | h | h | h <;> subst h <;>
      simp [hd_to_jsonschema_type, typeNameOf, getLength, hl0, Bind.bind, Except.bind,
        Pure.pure, Except.pure]
  · intro hlen
    subst hlen
    rcases hnm with h | h | h | h <;> subst h <;>
      exact ⟨by simp [hd_to_jsonschema_type, typeNameOf, getLength, Bind.bind, Except.bind,
          Pure.pure, Except.pure],
        by simp [resolveMapResult, sdkDefaultJsonschemaType]⟩

/-- C7 witness: `NVARCHAR(128)` maps to a string schema with
`maxLength = 128`, and `VARCHAR` with no length resolves to a plain string
schema through the default mapper. -/
theorem C7_char_types_witness :
    hd_to_jsonschema_type (.engine "NVARCHAR" (some 128) Option.none Option.none) =
      .ok (.mapped { type := ["string"], maxLength := some 128 }) ∧
    hd_to_jsonschema_type (.engine "VARCHAR" Option.none Option.none Option.none) =
      .ok (.fallback (.engine "VARCHAR" Option.none Option.none Option.none)) ∧
    resolveMapResult (.fallback (.engine "VARCHAR" Option.none Option.none Option.none)) =
      { type := ["string"] } :=
  ⟨(C7_char_types "NVARCHAR" (some 128) Option.none Option.none
      (Or.inr (Or.inr (Or.inr rfl)))).1 128 rfl (by decide),
    (C7_char_types "VARCHAR" Option.none Option.none Option.none
      (Or.inr (Or.inr (Or.inl rfl)))).2 rfl⟩

/-! ## C8 — NUMERIC/DECIMAL with precision 0 -/

/-- C8 counterexample to the claim as stated: a NUMERIC descriptor with
`precision = 0` and `scale = 0` does not fail — the mapper returns an
integer schema with bounds `[0, 0]` (`±(10^0 − 1)`). -/
theorem C8_counterexample :
    hd_to_jsonschema_type (.engine "NUMERIC" Option.none (some 0) (some 0)) =
      .ok (.mapped { type := ["integer"], minimum := some (.int 0),
                     maximum := some (.int 0) }) := by decide

/-- C8 (amended): `precision = 0` is not reported as an invalid type
descriptor.  With `scale = 0` the mapper returns the degenerate integer
schema `[0, 0]`; with `scale > 0` the maximal digit string is empty and the
`float('')` conversion raises a `ValueError` — the same exception class as,
but a different condition from, the type-dispatch `InvalidTypeDescriptor`
error. -/
theorem C8_precision_zero (nm : String) (len : Option ℕ) (s : ℕ)
    (hnm : nm = "NUMERIC" ∨ nm = "DECIMAL") :
    hd_to_jsonschema_type (.engine nm len (some 0) (some 0)) =
      .ok (.mapped { type := ["integer"], minimum := some (.int 0),
                     maximum := some (.int 0) }) ∧
    (s ≠ 0 → hd_to_jsonschema_type (.engine nm len (some 0) (some s)) =
      .error (.valueError "could not convert string to float")) := by
  constructor
  · rcases hnm with h | h <;> subst h <;>
      simp [hd_to_jsonschema_type, typeNameOf, getPrecision, getScale, numericBranch,
        Bind.bind, Except.bind]
  · intro hs
    obtain ⟨s1, rfl⟩ : ∃ s1, s = s1 + 1 := ⟨s - 1, by omega⟩
    rcases hnm with h | h <;> subst h <;>
      simp [hd_to_jsonschema_type, typeNameOf, getPrecision, getScale, numericBranch,
        decimalBranch, decimalMaxChars, pyFloatOfChars, parseVal, parseMant,
        Bind.bind, Except.bind]

/-- C8 witness: `DECIMAL(0, 3)` raises the float-conversion `ValueError`,
and `DECIMAL(0, 0)` maps to integer bounds `[0, 0]`. -/
theorem C8_precision_zero_witness :
    hd_to_jsonschema_type (.engine "DECIMAL" Option.none (some 0) (some 0)) =
      .ok (.mapped { type := ["integer"], minimum := some (.int 0),
                     maximum := some (.int 0) }) ∧
    hd_to_jsonschema_type (.engine "DECIMAL" Option.none (some 0) (some 3)) =
      .error (.valueError "could not convert string to float") :=
  ⟨(C8_precision_zero "DECIMAL" Option.none 3 (Or.inr rfl)).1,
    (C8_precision_zero "DECIMAL" Option.none 3 (Or.inr rfl)).2 (by decide)⟩

/-! ## C1 — helper lemmas on string splitting and parsing -/

theorem all_replicate_of (f : Char → Bool) (c : Char) (h : f c = true) (n : ℕ) :
    (List.replicate n c).all f = true := by
  induction n with
  | zero => rfl
  | succ n ih => simp [List.replicate_succ, h, ih]

/-- Splitting `l1 ++ l2` at a predicate that holds on all of `l1` and fails
at the head of `l2`. -/
theorem takeWhile_dropWhile_append (f : Char → Bool) (l1 l2 : List Char)
    (h1 : l1.all f = true) (h2 : ∀ c l, l2 = c :: l → f c = false) :
    (l1 ++ l2).takeWhile f = l1 ∧ (l1 ++ l2).dropWhile f = l2 := by
  induction l1 with
  | nil =>
    cases l2 with
    | nil => exact ⟨rfl, rfl⟩
    | cons c l =>
      have hc := h2 c l rfl
      simp [List.takeWhile_cons, List.dropWhile_cons, hc]
  | cons a l1 ih =>
    rw [List.all_cons, Bool.and_eq_true] at h1
    have := ih h1.2
    simp [List.takeWhile_cons, List.dropWhile_cons, h1.1, this.1, this.2]

theorem parseUnsignedMant_nil : parseUnsignedMant [] = Option.none := rfl

/-- `parseMant` on a list whose head is not a sign. -/
theorem parseMant_not_sign (cs : List Char)
    (h : ∀ c l, cs = c :: l → c ≠ '-' ∧ c ≠ '+') :
    parseMant cs = parseUnsignedMant cs := by
  cases cs with
  | nil => rfl
  | cons c l =>
    obtain ⟨h1, h2⟩ := h c l rfl
    simp [parseMant, h1, h2]

/-- The maximal-digit-string shape `9…9.9…9` and its exact parse. -/
theorem parseUnsignedMant_max (a b : ℕ) (hb : 1 ≤ b) :
    parseUnsignedMant (List.replicate a '9' ++ '.' :: List.replicate b '9') =
      some (mkRat (digitsToNat (List.replicate a '9' ++ List.replicate b '9') : ℤ)
        (10 ^ b)) := by
  obtain ⟨htake, hdrop⟩ :=
    takeWhile_dropWhile_append isDigitB (List.replicate a '9') ('.' :: List.replicate b '9')
      (all_replicate_of isDigitB '9' rfl a)
      (by intro c l hcl; cases hcl; rfl)
  unfold parseUnsignedMant
  rw [htake, hdrop]
  have hall : (List.replicate b '9').all isDigitB = true := all_replicate_of isDigitB '9' rfl b
  have hne : List.replicate b '9' ≠ [] := by
    cases b with
    | zero => omega
    | succ b => simp [List.replicate_succ]
  simp [hall, hne, List.length_replicate]

theorem all_notExpMarker_max (a b : ℕ) :
    ((List.replicate a '9' ++ '.' :: List.replicate b '9')).all notExpMarker = true := by
  rw [List.all_append, List.all_cons]
  simp [all_replicate_of notExpMarker '9' rfl, (show notExpMarker '.' = true from rfl)]

/-- `parseVal` of the maximal digit string. -/
theorem parseVal_max (a b : ℕ) (hb : 1 ≤ b) :
    parseVal (List.replicate a '9' ++ '.' :: List.replicate b '9') =
      some (mkRat (digitsToNat (List.replicate a '9' ++ List.replicate b '9') : ℤ)
        (10 ^ b)) := by
  obtain ⟨htake, hdrop⟩ :=
    takeWhile_dropWhile_append notExpMarker
      (List.replicate a '9' ++ '.' :: List.replicate b '9') []
      (all_notExpMarker_max a b) (by intro c l hcl; cases hcl)
  have hsign : ∀ c l, List.replicate a '9' ++ '.' :: List.replicate b '9' = c :: l →
      c ≠ '-' ∧ c ≠ '+' := by
    intro c l hcl
    cases a with
    | zero => rw [List.replicate, List.nil_append] at hcl; cases hcl; exact ⟨by decide, by decide⟩
    | succ a => rw [List.replicate_succ, List.cons_append] at hcl; cases hcl
                exact ⟨by decide, by decide⟩
  unfold parseVal
  rw [List.append_nil] at htake hdrop
  rw [htake, hdrop]
  show parseMant (List.replicate a '9' ++ '.' :: List.replicate b '9') =
    some (mkRat (digitsToNat (List.replicate a '9' ++ List.replicate b '9') : ℤ) (10 ^ b))
  rw [parseMant_not_sign _ hsign, parseUnsignedMant_max a b hb]

/-- `parseVal` of the negated maximal digit string. -/
theorem parseVal_neg_max (a b : ℕ) (hb : 1 ≤ b) :
    parseVal ('-' :: (List.replicate a '9' ++ '.' :: List.replicate b '9')) =
      some (-(mkRat (digitsToNat (List.replicate a '9' ++ List.replicate b '9') : ℤ)
        (10 ^ b))) := by
  obtain ⟨htake, hdrop⟩ :=
    takeWhile_dropWhile_append notExpMarker
      ('-' :: (List.replicate a '9' ++ '.' :: List.replicate b '9')) []
      (by rw [List.all_cons]; simp [all_notExpMarker_max a b]; rfl)
      (by intro c l hcl; cases hcl)
  have hm : parseMant ('-' :: (List.replicate a '9' ++ '.' :: List.replicate b '9')) =
      (parseUnsignedMant (List.replicate a '9' ++ '.' :: List.replicate b '9')).map
        (fun q => -q) := by
    simp [parseMant]
  unfold parseVal
  rw [List.append_nil] at htake hdrop
  rw [htake, hdrop]
  show parseMant ('-' :: (List.replicate a '9' ++ '.' :: List.replicate b '9')) =
    some (-(mkRat (digitsToNat (List.replicate a '9' ++ List.replicate b '9') : ℤ) (10 ^ b)))
  rw [hm, parseUnsignedMant_max a b hb]
  rfl

theorem natToCharsAux_all_digits (f n : ℕ) : (natToCharsAux f n).all isDigitB = true := by
  induction f generalizing n with
  | zero => rfl
  | succ f ih =>
    unfold natToCharsAux
    by_cases h : n < 10
    · have h9 : isDigitB (digitChar n) = true := by
        interval_cases n <;> decide
      simp [h, h9]
    · have h9 : isDigitB (digitChar (n % 10)) = true := by
        have : n % 10 < 10 := Nat.mod_lt _ (by omega)
        interval_cases hm : n % 10 <;> decide
      simp [h, List.all_append, ih, h9]

theorem natToChars_all_digits (n : ℕ) : (natToChars n).all isDigitB = true :=
  natToCharsAux_all_digits (n + 1) n

theorem natToChars_ne_nil (n : ℕ) : natToChars n ≠ [] := by
  unfold natToChars natToCharsAux
  by_cases h : n < 10 <;> simp [h]

theorem parseExp_plus (ds : List Char) (h1 : ds ≠ []) (h2 : ds.all isDigitB = true) :
    parseExp ('+' :: ds) = some ((digitsToNat ds : ℤ)) := by
  simp [parseExp, parseDigits, h1, h2]

/-- Negation passes through a power-of-ten scaling. -/
theorem qscale10_neg (q : ℚ) (k : ℤ) : qscale10 (-q) k = -qscale10 q k := by
  unfold qscale10
  rw [Rat.neg_num, Rat.neg_den]
  split <;> rw [Rat.mkRat_eq_div, Rat.mkRat_eq_div] <;> push_cast <;> ring

/-- Negation passes through the float rounding. -/
theorem pyFloat_neg (q : ℚ) : pyFloat (-q) = -pyFloat q := by
  unfold pyFloat
  rcases lt_trichotomy q 0 with h | rfl | h
  · rw [if_pos (by linarith), if_neg (by linarith), if_pos h, neg_neg]
  · simp
  · rw [if_neg (by linarith), if_pos (by linarith), if_pos h, neg_neg]

/-- The scientific-format mantissa `9.9…9` and its exact parse. -/
theorem parseUnsignedMant_sci (s : ℕ) (hs : 1 ≤ s) :
    parseUnsignedMant ('9' :: '.' :: List.replicate s '9') =
      some (mkRat (digitsToNat ('9' :: List.replicate s '9') : ℤ) (10 ^ s)) := by
  have h := parseUnsignedMant_max 1 s hs
  simpa [List.replicate_one] using h

/-- `parseVal` of the scientific-format string. -/
theorem parseVal_sci (s : ℕ) (ds : List Char) (hs : 1 ≤ s) (h1 : ds ≠ [])
    (h2 : ds.all isDigitB = true) :
    parseVal ('9' :: '.' :: List.replicate s '9' ++ 'e' :: '+' :: ds) =
      some (qscale10 (mkRat (digitsToNat ('9' :: List.replicate s '9') : ℤ) (10 ^ s))
        ((digitsToNat ds : ℤ))) := by
  obtain ⟨htake, hdrop⟩ :=
    takeWhile_dropWhile_append notExpMarker ('9' :: '.' :: List.replicate s '9')
      ('e' :: '+' :: ds)
      (by rw [List.all_cons, List.all_cons]
          simp [all_replicate_of notExpMarker '9' rfl, (show notExpMarker '9' = true from rfl),
            (show notExpMarker '.' = true from rfl)])
      (by intro c l hcl; cases hcl; rfl)
  unfold parseVal
  rw [List.cons_append, List.cons_append] at htake hdrop ⊢
  rw [htake, hdrop]
  show (match parseMant ('9' :: '.' :: List.replicate s '9'), parseExp ('+' :: ds) with
    | some m, some e => some (qscale10 m e)
    | _, _ => Option.none) = _
  have hm : parseMant ('9' :: '.' :: List.replicate s '9') =
      parseUnsignedMant ('9' :: '.' :: List.replicate s '9') :=
    parseMant_not_sign _ (by intro c l hcl; cases hcl; exact ⟨by decide, by decide⟩)
  rw [hm, parseUnsignedMant_sci s hs, parseExp_plus ds h1 h2]

/-- `parseVal` of the negated scientific-format string. -/
theorem parseVal_neg_sci (s : ℕ) (ds : List Char) (hs : 1 ≤ s) (h1 : ds ≠ [])
    (h2 : ds.all isDigitB = true) :
    parseVal ('-' :: ('9' :: '.' :: List.replicate s '9' ++ 'e' :: '+' :: ds)) =
      some (-(qscale10 (mkRat (digitsToNat ('9' :: List.replicate s '9') : ℤ) (10 ^ s))
        ((digitsToNat ds : ℤ)))) := by
  obtain ⟨htake, hdrop⟩ :=
    takeWhile_dropWhile_append notExpMarker ('-' :: '9' :: '.' :: List.replicate s '9')
      ('e' :: '+' :: ds)
      (by rw [List.all_cons, List.all_cons, List.all_cons]
          simp [all_replicate_of notExpMarker '9' rfl, (show notExpMarker '-' = true from rfl),
            (show notExpMarker '9' = true from rfl), (show notExpMarker '.' = true from rfl)])
      (by intro c l hcl; cases hcl; rfl)
  unfold parseVal
  rw [List.cons_append, List.cons_append, List.cons_append] at htake hdrop
  rw [List.cons_append, List.cons_append]
  rw [htake, hdrop]
  show (match parseMant ('-' :: '9' :: '.' :: List.replicate s '9'), parseExp ('+' :: ds) with
    | some m, some e => some (qscale10 m e)
    | _, _ => Option.none) = _
  have hm : parseMant ('-' :: '9' :: '.' :: List.replicate s '9') =
      (parseUnsignedMant ('9' :: '.' :: List.replicate s '9')).map (fun q => -q) := by
    simp [parseMant]
  rw [hm, parseUnsignedMant_sci s hs, parseExp_plus ds h1 h2]
  show some (qscale10 (-(mkRat _ _)) _) = _
  rw [qscale10_neg]

/-- The digit-string loop of lines 226-229, characterized: after `n` of the
`p` iterations the accumulator holds `n` nines with the decimal point
inserted once position `p - s` has been passed. -/
theorem decimalMaxChars_loop (p s : ℕ) (hsp : s ≤ p) :
    ∀ n, n ≤ p →
      (List.range n).foldl
        (fun acc (i : ℕ) =>
          (if (i : ℤ) = (p : ℤ) - (s : ℤ) then acc ++ ['.'] else acc) ++ ['9'])
        [] =
      if n ≤ p - s then List.replicate n '9'
      else List.replicate (p - s) '9' ++ '.' :: List.replicate (n - (p - s)) '9' := by
  intro n
  induction n with
  | zero => intro _; simp
  | succ n ih =>
    intro hn
    rw [List.range_succ, List.foldl_append, ih (by omega)]
    simp only [List.foldl_cons, List.foldl_nil]
    by_cases h1 : n + 1 ≤ p - s
    · rw [if_pos (by omega : n ≤ p - s), if_pos h1,
        if_neg (by omega : ¬((n : ℤ) = (p : ℤ) - (s : ℤ))), ← List.replicate_succ']
    · rw [if_neg h1]
      by_cases h2 : n ≤ p - s
      · have hnp : n = p - s := by omega
        rw [if_pos h2, if_pos (by omega : (n : ℤ) = (p : ℤ) - (s : ℤ)),
          show n + 1 - (p - s) = 1 from by omega, hnp]
        simp
      · rw [if_neg h2, if_neg (by omega : ¬((n : ℤ) = (p : ℤ) - (s : ℤ))),
          show n + 1 - (p - s) = (n - (p - s)) + 1 from by omega, List.replicate_succ']
        simp

/-- The maximal digit string the loop builds for `1 ≤ scale ≤ precision`:
`precision` nines with the point `scale` digits from the right. -/
theorem decimalMaxChars_eq (p s : ℕ) (hs : 1 ≤ s) (hsp : s ≤ p) :
    decimalMaxChars p s = List.replicate (p - s) '9' ++ '.' :: List.replicate s '9' := by
  unfold decimalMaxChars
  rw [decimalMaxChars_loop p s hsp p le_rfl, if_neg (by omega : ¬(p ≤ p - s)),
    show p - (p - s) = s from by omega]

theorem foldl_append_nines (c : List Char) (s : ℕ) :
    (List.range s).foldl (fun acc _ => acc ++ ['9']) c = c ++ List.replicate s '9' := by
  induction s with
  | zero => simp
  | succ s ih =>
    rw [List.range_succ, List.foldl_append, ih]
    simp [List.replicate_succ', List.append_assoc]

/-- The scientific-format string the loop builds: `9.` then `scale` nines
then `e+<precision>`. -/
theorem sciFormatChars_eq (p s : ℕ) :
    sciFormatChars p s =
      '9' :: '.' :: List.replicate s '9' ++ 'e' :: '+' :: natToChars p := by
  unfold sciFormatChars
  rw [foldl_append_nines]
  rfl

/-! ## C1 — the spec-side decimal-bound construction -/

/-- The maximal digit string as C1 words it: a digit string of length
`precision`, all nines, with the decimal point inserted `scale` digits from
the right. -/
def spec_decimal_max_chars (p s : ℕ) : List Char :=
  List.replicate (p - s) '9' ++ '.' :: List.replicate s '9'

/-- The scientific-form bound string as C1 words it: `9.` followed by
`scale` nines and `e+<precision>`. -/
def spec_scientific_chars (p s : ℕ) : List Char :=
  '9' :: '.' :: List.replicate s '9' ++ 'e' :: '+' :: natToChars p

/-- The number bounds exactly as C1 words them: the maximum is the float
conversion of the maximal digit string and the minimum is its negation;
when rendering that float requires scientific (`e+`) notation, the bounds
are instead the float values of the scientific-form strings, negated for
the minimum. -/
def spec_decimal_schema (p s : ℕ) : Option JsonSchema :=
  match pyFloatOfChars (spec_decimal_max_chars p s) with
  | Option.none => Option.none
  | Option.some b =>
    if strHasEPlus b then
      match pyFloatOfChars (spec_scientific_chars p s) with
      | Option.none => Option.none
      | Option.some sb =>
        some { type := ["number"], minimum := some (.float (-sb)),
               maximum := some (.float sb) }
    else
      some { type := ["number"], minimum := some (.float (-b)),
             maximum := some (.float b) }

/-- The decimal branch of the mapper agrees with the spec-side construction
for every scale and precision in the SQL Server domain `1 ≤ s ≤ p`. -/
theorem decimalBranch_eq_spec (p s : ℕ) (hs : 1 ≤ s) (hsp : s ≤ p) :
    ∃ sch, spec_decimal_schema p s = some sch ∧ decimalBranch p s = .ok (.mapped sch) := by
  have hmax : pyFloatOfChars (List.replicate (p - s) '9' ++ '.' :: List.replicate s '9') =
      some (pyFloat (mkRat
        (digitsToNat (List.replicate (p - s) '9' ++ List.replicate s '9') : ℤ) (10 ^ s))) := by
    rw [pyFloatOfChars, parseVal_max (p - s) s hs, Option.map_some']
  have hmin : pyFloatOfChars
      ('-' :: (List.replicate (p - s) '9' ++ '.' :: List.replicate s '9')) =
      some (-(pyFloat (mkRat
        (digitsToNat (List.replicate (p - s) '9' ++ List.replicate s '9') : ℤ) (10 ^ s)))) := by
    rw [pyFloatOfChars, parseVal_neg_max (p - s) s hs, Option.map_some', pyFloat_neg]
  have hsci : pyFloatOfChars
      ('9' :: '.' :: List.replicate s '9' ++ 'e' :: '+' :: natToChars p) =
      some (pyFloat (qscale10
        (mkRat (digitsToNat ('9' :: List.replicate s '9') : ℤ) (10 ^ s))
        ((digitsToNat (natToChars p) : ℤ)))) := by
    rw [pyFloatOfChars,
      parseVal_sci s (natToChars p) hs (natToChars_ne_nil p) (natToChars_all_digits p),
      Option.map_some']
  have hscim : pyFloatOfChars
      ('-' :: ('9' :: '.' :: List.replicate s '9' ++ 'e' :: '+' :: natToChars p)) =
      some (-(pyFloat (qscale10
        (mkRat (digitsToNat ('9' :: List.replicate s '9') : ℤ) (10 ^ s))
        ((digitsToNat (natToChars p) : ℤ))))) := by
    rw [pyFloatOfChars,
      parseVal_neg_sci s (natToChars p) hs (natToChars_ne_nil p) (natToChars_all_digits p),
      Option.map_some', pyFloat_neg]
  set B : ℚ := pyFloat (mkRat
    (digitsToNat (List.replicate (p - s) '9' ++ List.replicate s '9') : ℤ) (10 ^ s)) with hB
  set SB : ℚ := pyFloat (qscale10
    (mkRat (digitsToNat ('9' :: List.replicate s '9') : ℤ) (10 ^ s))
    ((digitsToNat (natToChars p) : ℤ))) with hSB
  by_cases hE : strHasEPlus B = false
  · refine ⟨{ type := ["number"], minimum := some (.float (-B)),
              maximum := some (.float B) }, ?_, ?_⟩
    · simp only [spec_decimal_schema, spec_decimal_max_chars]
      rw [hmax]
      simp [hE]
    · simp only [decimalBranch]
      rw [decimalMaxChars_eq p s hs hsp, hmax, hmin]
      simp [hE]
  · rw [Bool.not_eq_false] at hE
    refine ⟨{ type := ["number"], minimum := some (.float (-SB)),
              maximum := some (.float SB) }, ?_, ?_⟩
    · simp only [spec_decimal_schema, spec_decimal_max_chars, spec_scientific_chars]
      rw [hmax]
      simp only [hE, if_true]
      rw [hsci]
    · simp only [decimalBranch]
      rw [decimalMaxChars_eq p s hs hsp, sciFormatChars_eq, hmax, hsci, hscim]
      simp [hE]

/-- C1: for every NUMERIC/DECIMAL descriptor in the SQL Server domain
`1 ≤ scale ≤ precision ≤ 38` (within which the unbounded-exponent float
model coincides with binary64), the mapper returns type `number` with
maximum the float conversion of the all-nines digit string of length
`precision` with the point `scale` digits from the right, minimum its
negation, switching to the float values of the `9.9…9e+precision` strings
exactly when the decimal float would render with `e+` notation — i.e. its
output is `spec_decimal_schema`, the bounds as the claim words them. -/
theorem C1_numeric_decimal_bounds (nm : String) (len : Option ℕ) (p s : ℕ)
    (hnm : nm = "NUMERIC" ∨ nm = "DECIMAL") (_hp38 : p ≤ 38) (hs1 : 1 ≤ s) (hsp : s ≤ p) :
    ∃ sch, spec_decimal_schema p s = some sch ∧
      hd_to_jsonschema_type (.engine nm len (some p) (some s)) = .ok (.mapped sch) := by
  have hhd : hd_to_jsonschema_type (.engine nm len (some p) (some s)) =
      numericBranch (some p) (some s) := by
    rcases hnm with h | h <;> subst h <;>
      simp [hd_to_jsonschema_type, typeNameOf, getPrecision, getScale, Bind.bind, Except.bind]
  obtain ⟨s1, rfl⟩ : ∃ s1, s = s1 + 1 := ⟨s - 1, by omega⟩
  have hnum : numericBranch (some p) (some (s1 + 1)) = decimalBranch p (s1 + 1) := rfl
  rw [hhd, hnum]
  exact decimalBranch_eq_spec p (s1 + 1) (by omega) hsp

/-- C1 witness: `NUMERIC(5, 2)` yields type `number` with bounds
`±999.99` — precisely, plus/minus the Python float `999.99`, whose exact
rational value is `4398002530638889 / 4398046511104`. -/
theorem C1_numeric_decimal_bounds_witness :
    hd_to_jsonschema_type (.engine "NUMERIC" Option.none (some 5) (some 2)) =
      .ok (.mapped
        { type := ["number"],
          minimum := some (.float (-(mkRat 4398002530638889 4398046511104))),
          maximum := some (.float (mkRat 4398002530638889 4398046511104)) }) ∧
    spec_decimal_schema 5 2 = some
      { type := ["number"],
        minimum := some (.float (-(mkRat 4398002530638889 4398046511104))),
        maximum := some (.float (mkRat 4398002530638889 4398046511104)) } := by
  obtain ⟨sch, h1, h2⟩ := C1_numeric_decimal_bounds "NUMERIC" Option.none 5 2
    (Or.inl rfl) (by decide) (by decide) (by decide)
  have hs : spec_decimal_schema 5 2 = some
      { type := ["number"],
        minimum := some (.float (-(mkRat 4398002530638889 4398046511104))),
        maximum := some (.float (mkRat 4398002530638889 4398046511104)) } := by decide
  rw [hs] at h1
  injection h1 with h1
  rw [← h1] at h2
  exact ⟨h2, hs⟩
